import Mathlib

/-!
Shallow embedding of `kswatch.py` (kickstarter-pledge-watch).

The script runs under Python 3.  Its HTML handling is built on
`html.parser.HTMLParser`: the tokenizer (external library code) turns markup
into a stream of start-tag / end-tag / character-data callbacks, and all of
the script's extraction logic lives in the `KickstarterHTMLParser` handler
methods.  We therefore embed the code at the callback level: `HEvent` is the
event stream the tokenizer delivers for the markup, and the handler methods
are translated one for one.  A Python read of an instance attribute that may
never have been assigned (`self.value`, `self.ident`, `self.description`)
is modelled with `Option`, the read of an unassigned field raising
`AttributeError`; a `dict` subscript on a missing key raises `KeyError`;
a reference to an undefined global name raises `NameError`.  Fallible steps
return `Except PyErr`.
-/

/-- The Python exceptions the embedded code can raise. -/
inductive PyErr where
  | nameError (n : String)
  | keyError (k : String)
  | attributeError (a : String)
  | requestError (m : String)
deriving DecidableEq, Repr

/-- One reward entry: the tuple `(self.value, self.ident, description)`
appended to `self.rewards` at a `</li>` (kswatch.py lines 101-103). -/
structure RewardRecord where
  value : String
  ident : String
  description : String
deriving DecidableEq, Repr

/-- The callback stream `html.parser.HTMLParser` feeds to the handler
methods `handle_starttag`, `handle_endtag` and `handle_data`. -/
inductive HEvent where
  | startTag (tag : String) (attrs : List (String × String))
  | endTag (tag : String)
  | dataText (txt : String)
deriving DecidableEq, Repr

/-- List-prefix test on character lists, used for substring membership. -/
def leadsWith : List Char → List Char → Bool
  | [], _ => true
  | _ :: _, [] => false
  | a :: as, b :: bs => a == b && leadsWith as bs

/-- Contiguous sublist membership on character lists. -/
def occursInList (needle : List Char) : List Char → Bool
  | [] => leadsWith needle []
  | h :: t => leadsWith needle (h :: t) || occursInList needle t

/-- Python `needle in hay` on strings: contiguous substring membership. -/
def strIn (needle hay : String) : Bool :=
  occursInList needle.toList hay.toList

/-- Python `s.encode('ascii', 'ignore').decode()`: drop every non-ASCII
character, keep the rest unchanged. -/
def asciiOnly (s : String) : String :=
  String.mk (s.toList.filter (fun c => c.toNat ≤ 127))

/-- The whitespace class of Python `str.split()` with no arguments. -/
def pySpace (c : Char) : Bool :=
  c == ' ' || c == '\t' || c == '\n' || c == '\r' || c.toNat == 11 || c.toNat == 12

/-- Accumulating pass behind `str.split()`: the maximal runs of
non-whitespace characters, in order (`cur` holds the current run reversed). -/
def wsTokensAux : List Char → List Char → List (List Char)
  | cur, [] => if cur.isEmpty then [] else [cur.reverse]
  | cur, c :: rest =>
    if pySpace c then
      if cur.isEmpty then wsTokensAux [] rest else cur.reverse :: wsTokensAux [] rest
    else wsTokensAux (c :: cur) rest

/-- Join a list of strings with single spaces (`' '.join(...)`). -/
def joinSp : List String → String
  | [] => ""
  | [x] => x
  | x :: xs => x ++ " " ++ joinSp xs

/-- `' '.join(s.split())` (kswatch.py line 103): collapse internal
whitespace runs to single spaces and trim both ends. -/
def pyNormalize (s : String) : String :=
  joinSp ((wsTokensAux [] s.toList).map String.mk)

/-- `html.unescape`, restricted to the basic named entities; entity-free
text is mapped to itself exactly as `html.unescape` maps it. -/
def unescGo : List Char → List Char
  | '&' :: 'a' :: 'm' :: 'p' :: ';' :: rest => '&' :: unescGo rest
  | '&' :: 'l' :: 't' :: ';' :: rest => '<' :: unescGo rest
  | '&' :: 'g' :: 't' :: ';' :: rest => '>' :: unescGo rest
  | '&' :: 'q' :: 'u' :: 'o' :: 't' :: ';' :: rest => '"' :: unescGo rest
  | c :: rest => c :: unescGo rest
  | [] => []

/-- See `unescGo`. -/
def pyUnescape (s : String) : String :=
  String.mk (unescGo s.toList)

/-- `dict(attributes)` lookup: on a duplicated attribute name the last
binding wins, as with Python `dict` built from a pair list. -/
def attrLookup (attrs : List (String × String)) (key : String) : Option String :=
  attrs.foldl (fun acc p => if p.1 == key then some p.2 else acc) none

/-- The mutable fields of `KickstarterHTMLParser`.  `__init__` assigns only
the two flags (and `name`, which the extractor itself never reads);
`value`, `ident` and `description` come into existence on first
assignment, so they are `Option`s here and a read before any assignment
raises `AttributeError`.  `rewards` is reset by `process`. -/
structure KSState where
  in_li_block : Bool
  in_desc_block : Bool
  value : Option String
  ident : Option String
  description : Option String
  rewards : List RewardRecord
deriving DecidableEq, Repr

/-- The state `__init__` leaves behind (lines 61-65). -/
def initState : KSState :=
  { in_li_block := false, in_desc_block := false, value := none, ident := none,
    description := none, rewards := [] }

/-- The third `if` of `handle_starttag` (lines 92-96): entering an
`<li class="... pledge--all-gone ...">` block sets the flag and resets the
description buffer; `value`/`ident` are deliberately not reset there. -/
def liEnter (st : KSState) (tag cls : String) : KSState :=
  if tag == "li" && strIn "pledge--all-gone" cls then
    { st with in_li_block := true, description := some "" }
  else st

/-- The first `if` of `handle_starttag` (lines 83-84): inside a candidate
block, a tag whose class list mentions `pledge__title` sets the
description flag. -/
def titleStep (st : KSState) (cls : String) : KSState :=
  if st.in_li_block && strIn "pledge__title" cls then
    { st with in_desc_block := true }
  else st

/-- `handle_starttag` (lines 74-96): a tag without a `class` attribute is
ignored outright; otherwise the three `if`s run in source order against the
live state (`titleStep st cls` is the state after the first `if`).
`attrs['title']` and `attrs['id']` are `dict` subscripts and raise
`KeyError` when the attribute is absent. -/
def handle_starttag (st : KSState) (tag : String)
    (attributes : List (String × String)) : Except PyErr KSState :=
  match attrLookup attributes "class" with
  | none => Except.ok st
  | some cls =>
    if (titleStep st cls).in_li_block && (tag == "input") && strIn "pledge__radio" cls then
      match attrLookup attributes "title" with
      | none => Except.error (PyErr.keyError "title")
      | some t =>
        match attrLookup attributes "id" with
        | none => Except.error (PyErr.keyError "id")
        | some i =>
          Except.ok (liEnter { titleStep st cls with
            value := some (asciiOnly t), ident := some i } tag cls)
    else Except.ok (liEnter (titleStep st cls) tag cls)

/-- The `</li>` emission (lines 99-104): reads `self.value`, `self.ident`
and `self.description` in that order, each raising `AttributeError` if it
was never assigned, then appends the record and clears the flag. -/
def emitReward (st : KSState) : Except PyErr KSState :=
  match st.value with
  | none => Except.error (PyErr.attributeError "value")
  | some v =>
    match st.ident with
    | none => Except.error (PyErr.attributeError "ident")
    | some i =>
      match st.description with
      | none => Except.error (PyErr.attributeError "description")
      | some d =>
        Except.ok { st with rewards := st.rewards ++ [⟨v, i, pyNormalize d⟩],
                            in_li_block := false }

/-- `handle_endtag` (lines 98-106): the `li` branch runs first, then the
`h3` branch, on whatever state the first branch left. -/
def handle_endtag (st : KSState) (tag : String) : Except PyErr KSState :=
  match (if tag == "li" && st.in_li_block then emitReward st else Except.ok st) with
  | Except.error e => Except.error e
  | Except.ok st1 =>
    Except.ok (if tag == "h3" then { st1 with in_desc_block := false } else st1)

/-- `handle_data` (lines 108-110): while the description flag is set,
entity-decode, ASCII-filter and append the text to the buffer. -/
def handle_data (st : KSState) (d : String) : Except PyErr KSState :=
  if st.in_desc_block then
    match st.description with
    | none => Except.error (PyErr.attributeError "description")
    | some s => Except.ok { st with description := some (s ++ asciiOnly (pyUnescape d)) }
  else Except.ok st

/-- Dispatch one tokenizer callback. -/
def handleEvent (st : KSState) : HEvent → Except PyErr KSState
  | HEvent.startTag t attrs => handle_starttag st t attrs
  | HEvent.endTag t => handle_endtag st t
  | HEvent.dataText d => handle_data st d

/-- `HTMLParser.feed`: deliver the event stream in order; an exception
raised inside a handler propagates out of `feed`. -/
def feed (st : KSState) : List HEvent → Except PyErr KSState
  | [] => Except.ok st
  | e :: rest =>
    match handleEvent st e with
    | Except.error err => Except.error err
    | Except.ok st1 => feed st1 rest

/-- `KickstarterHTMLParser.process` minus the network fetch (lines 67-72):
reset `self.rewards` to `[]`, feed the page's event stream, and return the
final parser state (whose `rewards` field is the method's return value).
The flag and capture fields are NOT reset: `process` reuses the live
instance state left by any earlier call. -/
def processRun (st : KSState) (events : List HEvent) : Except PyErr KSState :=
  feed { st with rewards := [] } events

/-- One `process` call on a freshly constructed parser. -/
def extract (events : List HEvent) : Except PyErr (List RewardRecord) :=
  Except.map KSState.rewards (processRun initState events)

/-- Two successive `process` calls on the same parser instance, which is
exactly how the script calls it: `ks` is constructed once (line 187) and
`ks.process(url)` runs at startup and then once per poll (lines 189, 229). -/
def extractTwice (events : List HEvent) :
    Except PyErr (List RewardRecord × List RewardRecord) :=
  match processRun initState events with
  | Except.error e => Except.error e
  | Except.ok st1 =>
    match processRun st1 events with
    | Except.error e => Except.error e
    | Except.ok st2 => Except.ok (st1.rewards, st2.rewards)

/-- Python runtime values met by `r[0] in pledges`: the captured price
token is a `str`, while the command-line amounts are `float`s
(`pledges = map(float, args[1:])`, line 185).  Python `==` between a `str`
and a `float` is `False`; `float` equality is embedded as exact rational
equality (its exact value never matters below). -/
inductive PyVal where
  | str (s : String)
  | float (q : Rat)

/-- Python `==` on the values above. -/
def pyEq : PyVal → PyVal → Bool
  | PyVal.str a, PyVal.str b => a == b
  | PyVal.float a, PyVal.float b => decide (a = b)
  | _, _ => false

/-- `selected = [r for r in rewards if r[0] in pledges]` (line 196).
The Python `map` object is additionally single-use, which can only remove
comparisons on later records; every comparison performed is `str` vs
`float` in any case, so the list model is exact. -/
def selectByPledges (rewards : List RewardRecord) (pledges : List Rat) :
    List RewardRecord :=
  rewards.filter (fun r => pledges.any (fun p => pyEq (PyVal.str r.value) (PyVal.float p)))

/-- `pledge_menu` (lines 124-144) as executed by Python 3: exactly one
candidate is auto-selected and the whole list returned; with any other
count the code reaches `for i in xrange(count)` and `xrange` is an
undefined name under Python 3, so the call raises `NameError` before any
menu line is printed.  (`raw_input` inside the retry loop is likewise
undefined there.) -/
def pledge_menu (rewards : List RewardRecord) : Except PyErr (List RewardRecord) :=
  if rewards.length == 1 then Except.ok rewards
  else Except.error (PyErr.nameError "xrange")

/-- How the startup sequence (lines 189-204) ends. -/
inductive StartupResult where
  | exitNoRewards
  | exitNoneSelected
  | proceed (selected : List RewardRecord)
deriving DecidableEq, Repr

/-- Startup selection (lines 189-204): an empty initial extraction prints
`No unavailable limited rewards for this Kickstarter` and exits with code 0;
otherwise, when amounts were given (`pledges` is then a `map` object, which
is truthy even when it is empty) the comparison filter runs, else the menu;
an empty selection prints `No reward selected.` and exits with code 0. -/
def startupSelection (rewards : List RewardRecord) (pledges : Option (List Rat)) :
    Except PyErr StartupResult :=
  if rewards.isEmpty then Except.ok StartupResult.exitNoRewards
  else
    match pledges with
    | some ps =>
      let sel := selectByPledges rewards ps
      if sel.isEmpty then Except.ok StartupResult.exitNoneSelected
      else Except.ok (StartupResult.proceed sel)
    | none =>
      match pledge_menu rewards with
      | Except.error e => Except.error e
      | Except.ok sel =>
        if sel.isEmpty then Except.ok StartupResult.exitNoneSelected
        else Except.ok (StartupResult.proceed sel)

/-- The scan `for s in selected: if not s[1] in [r[1] for r in rewards]`
(lines 215-216): the first watched record whose identifier is absent from
the latest extraction. -/
def findAvail (selected rewards : List RewardRecord) : Option RewardRecord :=
  selected.find? (fun s => !(rewards.map (fun r => r.ident)).contains s.ident)

/-- Observable side effects of one cycle: timestamped `Reward available!`
console announcements and availability push notifications. -/
structure CycleEffects where
  announcements : Nat
  pushes : Nat
deriving DecidableEq, Repr

/-- How one iteration of the watch loop ends. -/
inductive CycleOutcome where
  | next (selected rewards : List RewardRecord)
  | exitZero
  | crash (e : PyErr)
deriving DecidableEq, Repr

/-- One iteration of the `while True:` watch loop (lines 214-229).
When the scan finds a transition, line 217 prints the timestamped
announcement and line 218 then evaluates `string(s[2])`; `string` is an
undefined name, so `NameError` is raised and propagates: the
`push_message` call, the removal from `selected`, and the exhaustion exit
`time.sleep(10); sys.exit(0)` on lines 219-223 are unreachable
(`CycleOutcome.exitZero` embeds those dead lines).  With no transition the
loop sleeps and refetches; `fetched` is what the external fetch plus
reparse delivers this cycle, and a raised `requests` exception propagates
uncaught out of the loop. -/
def loopIter (selected rewards : List RewardRecord)
    (fetched : Except PyErr (List RewardRecord)) : CycleOutcome × CycleEffects :=
  match findAvail selected rewards with
  | some _ => (CycleOutcome.crash (PyErr.nameError "string"),
      { announcements := 1, pushes := 0 })
  | none =>
    match fetched with
    | Except.error e => (CycleOutcome.crash e, { announcements := 0, pushes := 0 })
    | Except.ok rs => (CycleOutcome.next selected rs, { announcements := 0, pushes := 0 })

/-- Does a callback event carry the `pledge--all-gone` marker class? -/
def hasAllGoneClass : HEvent → Bool
  | HEvent.startTag _ attrs =>
    match attrLookup attrs "class" with
    | some c => strIn "pledge--all-gone" c
    | none => false
  | _ => false

/-- Event stream of the well-formed single candidate block of claim C3:
`<li class="pledge pledge--all-gone">` containing the selector control and
the title `Limited  <b>Edition</b>  Poster` (the `<b>` has no class
attribute and is structurally transparent, but its text is still data). -/
def eventsC3 : List HEvent := [
  HEvent.startTag "li" [("class", "pledge pledge--all-gone")],
  HEvent.startTag "input" [("class", "pledge__radio"), ("title", "$75.00"), ("id", "reward-42")],
  HEvent.startTag "h3" [("class", "pledge__title")],
  HEvent.dataText "Limited  ",
  HEvent.startTag "b" [],
  HEvent.dataText "Edition",
  HEvent.endTag "b",
  HEvent.dataText "  Poster",
  HEvent.endTag "h3",
  HEvent.endTag "li"]

/-- The parser state left behind by running `eventsC3` from `initState`. -/
def stateC3 : KSState :=
  { in_li_block := false, in_desc_block := false, value := some "$75.00",
    ident := some "reward-42", description := some "Limited  Edition  Poster",
    rewards := [⟨"$75.00", "reward-42", "Limited Edition Poster"⟩] }

/-- A candidate block whose `pledge__title` element is never closed: the
`in_desc_block` flag stays set when `feed` returns, so a second `process`
call on the same instance accumulates the stray text `X` into the
description while the first call did not. -/
def eventsC6 : List HEvent := [
  HEvent.startTag "li" [("class", "pledge pledge--all-gone")],
  HEvent.startTag "input" [("class", "pledge__radio"), ("title", "T"), ("id", "I")],
  HEvent.dataText "X",
  HEvent.startTag "h3" [("class", "pledge__title")],
  HEvent.dataText "D",
  HEvent.endTag "li"]

/-- Markup with no occurrence of the marker class (claim C7 witness). -/
def eventsC7 : List HEvent := [
  HEvent.startTag "div" [("class", "pledge__title")],
  HEvent.dataText "hello",
  HEvent.startTag "li" [("class", "pledge reward shipping")],
  HEvent.endTag "li",
  HEvent.endTag "h3"]

/-- A start event of a candidate `<li>`, used as a context prefix. -/
def liAllGoneEvent : HEvent :=
  HEvent.startTag "li" [("class", "pledge pledge--all-gone")]

/-- Concrete reward fixtures for the loop and menu claims. -/
def recA : RewardRecord := ⟨"$10.00", "A", "reward A"⟩

/-- See `recA`. -/
def recB : RewardRecord := ⟨"$20.00", "B", "reward B"⟩

/-- See `recA`. -/
def recC : RewardRecord := ⟨"$30.00", "C", "reward C"⟩

/-- Candidates of claim C2's scenario, priced `$50.00` and `$75.00`. -/
def rec50 : RewardRecord := ⟨"$50.00", "id-50", "Fifty"⟩

/-- See `rec50`. -/
def rec75 : RewardRecord := ⟨"$75.00", "id-75", "Seventyfive"⟩

/-- Relation between the states of two `process` runs over the same event
stream: the run on the left starts from the freshly-constructed state, the
run on the right starts from residual state whose two flags agree with the
left.  Flags, rewards evolve identically; `value`/`ident` agree once the
left run has assigned them; the description buffers agree whenever a flag
that can observe them is set. -/
def StRel (a b : KSState) : Prop :=
  a.in_li_block = b.in_li_block ∧
  a.in_desc_block = b.in_desc_block ∧
  a.rewards = b.rewards ∧
  (a.value = b.value ∨ a.value = none) ∧
  (a.ident = b.ident ∨ a.ident = none) ∧
  ((a.in_li_block = true ∨ a.in_desc_block = true) →
    a.description = b.description ∧ a.description ≠ none)

/-- Claim C3: on the single well-formed candidate block (selector titled
`$75.00` with id `reward-42`, title text `Limited  <b>Edition</b>  Poster`),
`extract` returns exactly one record `($75.00, reward-42,
"Limited Edition Poster")`, the description whitespace-collapsed and
trimmed. -/
theorem extract_single_block_c3 :
    extract eventsC3 =
      Except.ok [⟨"$75.00", "reward-42", "Limited Edition Poster"⟩] := by
  rfl

/-- Claim C5 counterexample: on a candidate block containing no selector
control, `extract` does not emit a record with empty price/identifier
fields; it raises `AttributeError` (the unassigned `self.value` is read at
the `</li>` emission), refuting the claim that such a block cannot fail. -/
theorem extract_no_selector_fails_c5 :
    extract [HEvent.startTag "li" [("class", "pledge--all-gone")], HEvent.endTag "li"] =
      Except.error (PyErr.attributeError "value") := by
  rfl

/-- Claim C5 amended: a candidate block with no selector control makes
`extract` raise `AttributeError` when no selector was captured earlier in
the parse; when an earlier block did capture one, the stale price and
identifier of that earlier block are reused for the selector-less block
(never empty strings). -/
theorem extract_no_selector_stale_c5 (t i : String) :
    extract [liAllGoneEvent,
      HEvent.startTag "input" [("class", "pledge__radio"), ("title", t), ("id", i)],
      HEvent.endTag "li", liAllGoneEvent, HEvent.endTag "li"] =
      Except.ok [⟨asciiOnly t, i, ""⟩, ⟨asciiOnly t, i, ""⟩] := by
  rfl

/-- Claim C6 counterexample: two successive `process` calls of the one
parser instance on identical markup return different record sequences: the
block of `eventsC6` never closes its title element, so `in_desc_block`
survives the first call and the second call also accumulates the stray
text `X` that precedes the title element. -/
theorem extract_twice_differs_c6 :
    extractTwice eventsC6 = Except.ok ([⟨"T", "I", "D"⟩], [⟨"T", "I", "XD"⟩]) ∧
      (⟨"T", "I", "D"⟩ : RewardRecord) ≠ ⟨"T", "I", "XD"⟩ := by
  exact ⟨rfl, by decide⟩

/-- Claim C9: with exactly one candidate the menu auto-selects it; with
more than one candidate Python 3 raises `NameError` at
`for i in xrange(count)` instead of presenting the list and re-prompting
(the re-prompt loop's `raw_input` is likewise undefined). -/
theorem pledge_menu_c9 :
    pledge_menu [recA] = Except.ok [recA] ∧
      pledge_menu [recA, recB] = Except.error (PyErr.nameError "xrange") := by
  exact ⟨rfl, rfl⟩

/-- Claim C1: on watch-set `[A, B]` against freshly extracted identifiers
`[A, C]`, the cycle prints the timestamped announcement for `B` and then
crashes with `NameError` at `print(string(s[2]))`: no availability push is
sent and `B` is never removed, contradicting the claimed full single
transition. -/
theorem loop_transition_crashes_c1 :
    loopIter [recA, recB] [recA, recC] (Except.ok [recA, recC]) =
      (CycleOutcome.crash (PyErr.nameError "string"),
        { announcements := 1, pushes := 0 }) := by
  rfl

/-- Claim C8: a transition that would empty the watch-set (sole watched
record `B`, absent from the extraction) also dies at `print(string(s[2]))`
with `NameError`; the grace-delay-and-exit path of lines 221-223 is
unreachable, so the claimed clean exit-0 termination never happens. -/
theorem loop_exhaustion_unreachable_c8 :
    loopIter [recB] [recA, recC] (Except.ok [recA, recC]) =
      (CycleOutcome.crash (PyErr.nameError "string"),
        { announcements := 1, pushes := 0 }) := by
  rfl

/-- Claim C4 counterexample: with no pending transition, a fetch failure in
the re-fetch step makes the cycle end in a crash (the `requests` exception
propagates uncaught), not in a skipped diff with the loop continuing. -/
theorem loop_fetch_failure_crashes_c4 :
    loopIter [recA] [recA] (Except.error (PyErr.requestError "ConnectionError")) =
      (CycleOutcome.crash (PyErr.requestError "ConnectionError"),
        { announcements := 0, pushes := 0 }) := by
  rfl

/-- Claim C4 amended: a fetch failure during the poll's re-fetch step
propagates as an unhandled exception and terminates the loop; in that
cycle no announcement is printed, no push is sent and the watch-set is not
modified at the point of the crash. -/
theorem loop_fetch_failure_propagates_c4 (sel rw : List RewardRecord) (e : PyErr)
    (h : findAvail sel rw = none) :
    loopIter sel rw (Except.error e) =
      (CycleOutcome.crash e, { announcements := 0, pushes := 0 }) := by
  unfold loopIter
  rw [h]

/-- Witness for `loop_fetch_failure_propagates_c4` at watch-set `[B]`
still fully unavailable. -/
theorem loop_fetch_failure_propagates_c4_witness :
    loopIter [recB] [recB] (Except.error (PyErr.requestError "timeout")) =
      (CycleOutcome.crash (PyErr.requestError "timeout"),
        { announcements := 0, pushes := 0 }) :=
  loop_fetch_failure_propagates_c4 [recB] [recB] (PyErr.requestError "timeout") rfl

/-- A `str`-vs-`float` comparison is `False` for every element, so the
membership test of line 196 never succeeds. -/
theorem any_str_float_false (s : String) (ps : List Rat) :
    (ps.any fun p => pyEq (PyVal.str s) (PyVal.float p)) = false := by
  induction ps with
  | nil => rfl
  | cons p t ih => simp only [List.any_cons, ih, Bool.or_false]; rfl

/-- Claim C2: the startup selection by target amount compares the captured
price token (a `str`) against float-parsed command-line amounts, so it
selects nothing, whatever the rewards and amounts are; in particular the
`$75.00` record of the claim's scenario is not selected and the program
exits with `No reward selected.`. -/
theorem selectByPledges_always_empty_c2 (rewards : List RewardRecord)
    (pledges : List Rat) : selectByPledges rewards pledges = [] := by
  induction rewards with
  | nil => rfl
  | cons r t ih =>
    simp only [selectByPledges] at ih ⊢
    rw [List.filter_cons, any_str_float_false]
    simpa using ih

/-- Delivering one event that raises propagates the error out of `feed`. -/
theorem feed_cons_error (st : KSState) (e : HEvent) (rest : List HEvent)
    (err : PyErr) (h : handleEvent st e = Except.error err) :
    feed st (e :: rest) = Except.error err := by
  simp [feed, h]

/-- Delivering one successful event steps `feed` to the next state. -/
theorem feed_cons_ok (st st1 : KSState) (e : HEvent) (rest : List HEvent)
    (h : handleEvent st e = Except.ok st1) :
    feed st (e :: rest) = feed st1 rest := by
  simp [feed, h]

/-- With both flags clear, an event not carrying the marker class is
handled without error, leaves both flags clear and appends no record. -/
theorem no_marker_step (st : KSState) (e : HEvent)
    (hg : hasAllGoneClass e = false) (hli : st.in_li_block = false)
    (hdesc : st.in_desc_block = false) :
    ∃ st1, handleEvent st e = Except.ok st1 ∧ st1.in_li_block = false ∧
      st1.in_desc_block = false ∧ st1.rewards = st.rewards := by
  cases e with
  | startTag t attrs =>
    simp only [handleEvent, handle_starttag]
    cases hc : attrLookup attrs "class" with
    | none => exact ⟨st, rfl, hli, hdesc, rfl⟩
    | some cls =>
      simp only [hasAllGoneClass, hc] at hg
      refine ⟨st, ?_, hli, hdesc, rfl⟩
      simp [hli, liEnter, titleStep, hg]
  | endTag t =>
    simp only [handleEvent, handle_endtag, hli, Bool.and_false]
    by_cases hh : (t == "h3") = true
    · refine ⟨{ st with in_desc_block := false }, ?_, hli, rfl, rfl⟩
      simp [hh]
    · refine ⟨st, ?_, hli, hdesc, rfl⟩
      simp [hh]
  | dataText d =>
    simp only [handleEvent, handle_data, hdesc]
    exact ⟨st, rfl, hli, hdesc, rfl⟩

/-- Feeding a stream with no occurrence of the marker class from a state
with both flags clear succeeds and leaves the reward list untouched. -/
theorem no_marker_feed (E : List HEvent) : ∀ (st : KSState),
    (E.all fun e => !hasAllGoneClass e) = true → st.in_li_block = false →
    st.in_desc_block = false →
    ∃ st2, feed st E = Except.ok st2 ∧ st2.rewards = st.rewards := by
  induction E with
  | nil => intro st _ _ _; exact ⟨st, rfl, rfl⟩
  | cons e rest ih =>
    intro st hall hli hdesc
    simp only [List.all_cons, Bool.and_eq_true, Bool.not_eq_true'] at hall
    obtain ⟨hg, hrest⟩ := hall
    obtain ⟨st1, hstep, h1, h2, h3⟩ := no_marker_step st e hg hli hdesc
    obtain ⟨st2, hfeed, hrw⟩ := ih st1 hrest h1 h2
    refine ⟨st2, ?_, by rw [hrw, h3]⟩
    rw [feed_cons_ok st st1 e rest hstep]
    exact hfeed

/-- Claim C7: markup with zero occurrences of the `pledge--all-gone`
marker class extracts to the empty sequence, and on an empty initial
extraction the startup path reports that nothing limited is unavailable
and terminates with exit code 0, whatever amounts were supplied. -/
theorem extract_no_marker_empty_c7 (events : List HEvent)
    (pledges : Option (List Rat))
    (h : (events.all fun e => !hasAllGoneClass e) = true) :
    extract events = Except.ok [] ∧
      startupSelection [] pledges = Except.ok StartupResult.exitNoRewards := by
  constructor
  · obtain ⟨st2, hfeed, hrw⟩ := no_marker_feed events initState h rfl rfl
    unfold extract processRun
    rw [show ({ initState with rewards := [] } : KSState) = initState from rfl, hfeed]
    simp [Except.map, hrw, initState]
  · rfl

/-- Witness for `extract_no_marker_empty_c7` on a stream whose classes
include `pledge__title` but never the marker class. -/
theorem extract_no_marker_empty_c7_witness :
    extract eventsC7 = Except.ok [] ∧
      startupSelection [] none = Except.ok StartupResult.exitNoRewards :=
  extract_no_marker_empty_c7 eventsC7 none (by rfl)

/-- Inside a candidate block, a `pledge__radio` selector with no `title`
attribute raises `KeyError` at `attrs['title']` (line 89). -/
theorem radio_missing_title (st : KSState) (attrs : List (String × String))
    (c : String) (hli : st.in_li_block = true)
    (hc : attrLookup attrs "class" = some c)
    (hr : strIn "pledge__radio" c = true)
    (ht : attrLookup attrs "title" = none) :
    handle_starttag st "input" attrs = Except.error (PyErr.keyError "title") := by
  simp only [handle_starttag, hc]
  have hst1 : (titleStep st c).in_li_block = true := by
    unfold titleStep; split <;> simp [hli]
  simp [hst1, hr, ht]

/-- Inside a candidate block, a `pledge__radio` selector carrying a
`title` but no `id` attribute raises `KeyError` at `attrs['id']`
(line 90). -/
theorem radio_missing_id (st : KSState) (attrs : List (String × String))
    (c tv : String) (hli : st.in_li_block = true)
    (hc : attrLookup attrs "class" = some c)
    (hr : strIn "pledge__radio" c = true)
    (ht : attrLookup attrs "title" = some tv)
    (hid : attrLookup attrs "id" = none) :
    handle_starttag st "input" attrs = Except.error (PyErr.keyError "id") := by
  simp only [handle_starttag, hc]
  have hst1 : (titleStep st c).in_li_block = true := by
    unfold titleStep; split <;> simp [hli]
  simp [hst1, hr, ht, hid]

/-- Claim C10: a selector control carrying the `pledge__radio` marker class
inside a candidate block but lacking its `title` attribute or its `id`
attribute makes the extractor raise `KeyError` on that tag - the missing
attribute is not tolerated with empty fields - and the error is reachable
through the public `extract` interface. -/
theorem extract_radio_missing_attr_c10 (attrs : List (String × String))
    (c : String) (hc : attrLookup attrs "class" = some c)
    (hr : strIn "pledge__radio" c = true)
    (hm : attrLookup attrs "title" = none ∨ attrLookup attrs "id" = none) :
    ∃ k, extract [liAllGoneEvent, HEvent.startTag "input" attrs] =
      Except.error (PyErr.keyError k) := by
  have h0 : handleEvent initState liAllGoneEvent =
      Except.ok ⟨true, false, none, none, some "", []⟩ := by rfl
  have hrun : ∀ err, handle_starttag (⟨true, false, none, none, some "", []⟩ : KSState)
      "input" attrs = Except.error err →
      extract [liAllGoneEvent, HEvent.startTag "input" attrs] = Except.error err := by
    intro err h1
    unfold extract processRun
    rw [show ({ initState with rewards := [] } : KSState) = initState from rfl,
      feed_cons_ok _ _ _ _ h0,
      feed_cons_error _ (HEvent.startTag "input" attrs) [] err h1]
    rfl
  rcases hm with ht | hid
  · exact ⟨"title", hrun _ (radio_missing_title _ attrs c rfl hc hr ht)⟩
  · cases ht2 : attrLookup attrs "title" with
    | none => exact ⟨"title", hrun _ (radio_missing_title _ attrs c rfl hc hr ht2)⟩
    | some tv => exact ⟨"id", hrun _ (radio_missing_id _ attrs c tv rfl hc hr ht2 hid)⟩

/-- Witness for `extract_radio_missing_attr_c10`: a selector control that
has only its class attribute. -/
theorem extract_radio_missing_attr_c10_witness :
    ∃ k, extract [liAllGoneEvent,
      HEvent.startTag "input" [("class", "pledge__radio")]] =
      Except.error (PyErr.keyError k) :=
  extract_radio_missing_attr_c10 [("class", "pledge__radio")] "pledge__radio"
    rfl rfl (Or.inl rfl)

/-- The `pledge__title` step preserves the two-run relation. -/
theorem StRel_title (a b : KSState) (cls : String) (hR : StRel a b) :
    StRel (titleStep a cls) (titleStep b cls) := by
  obtain ⟨h1, h2, h3, h4, h5, h6⟩ := hR
  unfold titleStep
  rw [← h1]
  by_cases hq : (a.in_li_block && strIn "pledge__title" cls) = true
  · rw [if_pos hq, if_pos hq]
    have hali : a.in_li_block = true := by
      have h' := hq
      simp only [Bool.and_eq_true] at h'
      exact h'.1
    exact ⟨rfl, rfl, h3, h4, h5, fun _ => h6 (Or.inl hali)⟩
  · rw [if_neg hq, if_neg hq]
    exact ⟨h1, h2, h3, h4, h5, h6⟩

/-- Entering a candidate `<li>` (or not) preserves the two-run relation. -/
theorem StRel_liEnter (a b : KSState) (t cls : String) (hR : StRel a b) :
    StRel (liEnter a t cls) (liEnter b t cls) := by
  obtain ⟨h1, h2, h3, h4, h5, h6⟩ := hR
  unfold liEnter
  by_cases hq : (t == "li" && strIn "pledge--all-gone" cls) = true
  · rw [if_pos hq, if_pos hq]
    exact ⟨rfl, h2, h3, h4, h5, fun _ => ⟨rfl, by simp⟩⟩
  · rw [if_neg hq, if_neg hq]
    exact ⟨h1, h2, h3, h4, h5, h6⟩

/-- Capturing the same `value`/`ident` pair preserves the relation. -/
theorem StRel_capture (a b : KSState) (v i : Option String) (hR : StRel a b) :
    StRel { a with value := v, ident := i } { b with value := v, ident := i } := by
  obtain ⟨h1, h2, h3, _, _, h6⟩ := hR
  exact ⟨h1, h2, h3, Or.inl rfl, Or.inl rfl, h6⟩

/-- `handle_starttag` preserves the two-run relation: the branch taken is
determined by the attributes and the shared flags, and on success the two
result states are again related. -/
theorem StRel_starttag {a b : KSState} (t : String)
    (attrs : List (String × String)) {a2 : KSState} (hR : StRel a b)
    (h : handle_starttag a t attrs = Except.ok a2) :
    ∃ b2, handle_starttag b t attrs = Except.ok b2 ∧ StRel a2 b2 := by
  obtain ⟨h1, h2, h3, h4, h5, h6⟩ := hR
  cases hc : attrLookup attrs "class" with
  | none =>
    rw [show handle_starttag a t attrs = Except.ok a by
      unfold handle_starttag; rw [hc]] at h
    injection h with h'
    subst h'
    exact ⟨b, by unfold handle_starttag; rw [hc], h1, h2, h3, h4, h5, h6⟩
  | some cls =>
    have hmid : StRel (titleStep a cls) (titleStep b cls) :=
      StRel_title a b cls ⟨h1, h2, h3, h4, h5, h6⟩
    obtain ⟨g1, g2, g3, g4, g5, g6⟩ := hmid
    unfold handle_starttag at h ⊢
    rw [hc] at h ⊢
    dsimp only at h ⊢
    by_cases hq : ((titleStep a cls).in_li_block && (t == "input") &&
        strIn "pledge__radio" cls) = true
    · have hqb : ((titleStep b cls).in_li_block && (t == "input") &&
          strIn "pledge__radio" cls) = true := by rw [← g1]; exact hq
      rw [if_pos hq] at h
      rw [if_pos hqb]
      cases htl : attrLookup attrs "title" with
      | none => rw [htl] at h; simp at h
      | some tv =>
        rw [htl] at h
        cases hid : attrLookup attrs "id" with
        | none => rw [hid] at h; simp at h
        | some iv =>
          rw [hid] at h
          dsimp only at h ⊢
          injection h with h'
          subst h'
          refine ⟨liEnter { titleStep b cls with
            value := some (asciiOnly tv), ident := some iv } t cls, rfl, ?_⟩
          exact StRel_liEnter _ _ t cls
            (StRel_capture _ _ _ _ ⟨g1, g2, g3, g4, g5, g6⟩)
    · have hqb : ¬ ((titleStep b cls).in_li_block && (t == "input") &&
          strIn "pledge__radio" cls) = true := by rw [← g1]; exact hq
      rw [if_neg hq] at h
      rw [if_neg hqb]
      injection h with h'
      subst h'
      exact ⟨liEnter (titleStep b cls) t cls, rfl,
        StRel_liEnter _ _ t cls ⟨g1, g2, g3, g4, g5, g6⟩⟩

/-- `handle_data` preserves the two-run relation. -/
theorem StRel_data {a b : KSState} (d : String) {a2 : KSState} (hR : StRel a b)
    (h : handle_data a d = Except.ok a2) :
    ∃ b2, handle_data b d = Except.ok b2 ∧ StRel a2 b2 := by
  obtain ⟨h1, h2, h3, h4, h5, h6⟩ := hR
  unfold handle_data at h ⊢
  by_cases hq : a.in_desc_block = true
  · have hqb : b.in_desc_block = true := h2 ▸ hq
    rw [if_pos hq] at h
    rw [if_pos hqb]
    obtain ⟨hdeq, hdne⟩ := h6 (Or.inr hq)
    cases hda : a.description with
    | none => exact absurd hda hdne
    | some s =>
      rw [hda] at h
      rw [← hdeq, hda]
      dsimp only at h ⊢
      injection h with h'
      subst h'
      exact ⟨{ b with description := some (s ++ asciiOnly (pyUnescape d)) }, rfl,
        h1, h2, h3, h4, h5, fun _ => ⟨rfl, by simp⟩⟩
  · have hqb : ¬ b.in_desc_block = true := h2 ▸ hq
    rw [if_neg hq] at h
    rw [if_neg hqb]
    injection h with h'
    subst h'
    exact ⟨b, rfl, h1, h2, h3, h4, h5, h6⟩

/-- `handle_endtag` preserves the two-run relation: an emission performed
by the left run is performed identically by the right run. -/
theorem StRel_endtag {a b : KSState} (t : String) {a2 : KSState} (hR : StRel a b)
    (h : handle_endtag a t = Except.ok a2) :
    ∃ b2, handle_endtag b t = Except.ok b2 ∧ StRel a2 b2 := by
  obtain ⟨h1, h2, h3, h4, h5, h6⟩ := hR
  unfold handle_endtag at h ⊢
  by_cases hq : (t == "li" && a.in_li_block) = true
  · have hqb : (t == "li" && b.in_li_block) = true := by rw [← h1]; exact hq
    have hq' := hq
    simp only [Bool.and_eq_true] at hq'
    have htli : t = "li" := by
      have := hq'.1
      simpa using this
    subst htli
    have hali : a.in_li_block = true := hq'.2
    obtain ⟨hdeq, hdne⟩ := h6 (Or.inl hali)
    rw [if_pos hq] at h
    rw [if_pos hqb]
    cases hva : a.value with
    | none => unfold emitReward at h; rw [hva] at h; simp at h
    | some v =>
      have hvb : b.value = some v := by
        rcases h4 with h4 | h4
        · rw [← h4, hva]
        · rw [hva] at h4; simp at h4
      cases hia : a.ident with
      | none => unfold emitReward at h; rw [hva, hia] at h; simp at h
      | some i =>
        have hib : b.ident = some i := by
          rcases h5 with h5 | h5
          · rw [← h5, hia]
          · rw [hia] at h5; simp at h5
        cases hda : a.description with
        | none => exact absurd hda hdne
        | some dd =>
          have hdb : b.description = some dd := hdeq ▸ hda
          unfold emitReward at h ⊢
          rw [hva, hia, hda] at h
          rw [hvb, hib, hdb]
          dsimp only at h ⊢
          rw [if_neg (by decide : ¬ (("li" == "h3") = true))] at h
          rw [if_neg (by decide : ¬ (("li" == "h3") = true))]
          injection h with h'
          subst h'
          refine ⟨_, rfl, rfl, h2, by rw [h3], Or.inl rfl, Or.inl rfl,
            fun _ => ⟨rfl, by simp⟩⟩
  · have hqb : ¬ (t == "li" && b.in_li_block) = true := by rw [← h1]; exact hq
    rw [if_neg hq] at h
    rw [if_neg hqb]
    dsimp only at h ⊢
    by_cases hh : (t == "h3") = true
    · rw [if_pos hh] at h
      rw [if_pos hh]
      injection h with h'
      subst h'
      refine ⟨{ b with in_desc_block := false }, rfl, h1, rfl, h3, h4, h5, ?_⟩
      intro hor
      rcases hor with hor | hor
      · exact h6 (Or.inl hor)
      · simp at hor
    · rw [if_neg hh] at h
      rw [if_neg hh]
      injection h with h'
      subst h'
      exact ⟨b, rfl, h1, h2, h3, h4, h5, h6⟩

/-- Event dispatch preserves the two-run relation. -/
theorem StRel_handleEvent {a b : KSState} (e : HEvent) {a2 : KSState}
    (hR : StRel a b) (h : handleEvent a e = Except.ok a2) :
    ∃ b2, handleEvent b e = Except.ok b2 ∧ StRel a2 b2 := by
  cases e with
  | startTag t attrs => exact StRel_starttag t attrs hR h
  | endTag t => exact StRel_endtag t hR h
  | dataText d => exact StRel_data d hR h

/-- A whole successful `feed` of the left run is matched by the right run,
and the final states are still related: in particular the reward lists
built by the two runs are equal. -/
theorem StRel_feed (E : List HEvent) : ∀ {a b a2 : KSState}, StRel a b →
    feed a E = Except.ok a2 → ∃ b2, feed b E = Except.ok b2 ∧ StRel a2 b2 := by
  induction E with
  | nil =>
    intro a b a2 hR h
    rw [show feed a [] = Except.ok a from rfl] at h
    injection h with h'
    subst h'
    exact ⟨b, rfl, hR⟩
  | cons e rest ih =>
    intro a b a2 hR h
    cases hs : handleEvent a e with
    | error err => rw [feed_cons_error a e rest err hs] at h; simp at h
    | ok a1 =>
      rw [feed_cons_ok a a1 e rest hs] at h
      obtain ⟨b1, hb1, hR1⟩ := StRel_handleEvent e hR hs
      obtain ⟨b2, hb2, hR2⟩ := ih hR1 h
      exact ⟨b2, by rw [feed_cons_ok b b1 e rest hb1]; exact hb2, hR2⟩

/-- Claim C6 amended: a second `process` call of the same parser instance
on identical markup returns the same record sequence as the first,
provided the first call succeeds and finishes with both parser flags
clear; when the markup leaves a flag set (for example a candidate block
whose title element is never closed), the second call's result can differ,
because `process` resets only `self.rewards` and the flag and capture
fields persist across calls. -/
theorem extract_repeat_flags_clear_c6 (events : List HEvent) (st1 : KSState)
    (h : processRun initState events = Except.ok st1)
    (hli : st1.in_li_block = false) (hdesc : st1.in_desc_block = false) :
    extractTwice events = Except.ok (st1.rewards, st1.rewards) := by
  have hrel : StRel { initState with rewards := [] } { st1 with rewards := [] } := by
    refine ⟨?_, ?_, rfl, Or.inr rfl, Or.inr rfl, ?_⟩
    · exact hli.symm
    · exact hdesc.symm
    · intro hor
      rcases hor with hor | hor <;> simp [initState] at hor
  unfold processRun at h
  obtain ⟨b2, hb2, hR2⟩ := StRel_feed events hrel h
  unfold extractTwice processRun
  rw [h]
  dsimp only
  rw [hb2]
  obtain ⟨_, _, h3, _⟩ := hR2
  rw [h3]

/-- Witness for `extract_repeat_flags_clear_c6`: the well-formed block of
claim C3 closes its `h3`, so both flags are clear after the first call and
the second call reproduces the same single record. -/
theorem extract_repeat_flags_clear_c6_witness :
    extractTwice eventsC3 = Except.ok
      ([⟨"$75.00", "reward-42", "Limited Edition Poster"⟩],
        [⟨"$75.00", "reward-42", "Limited Edition Poster"⟩]) :=
  extract_repeat_flags_clear_c6 eventsC3 stateC3 (by rfl) rfl rfl
